import Mathlib

/-!
Shallow embedding of the MemeMeowIME configuration store
(src/src-tauri/src/config_manager.rs) and resilient fetcher
(src/src-tauri/src/utils/network.rs), with theorems settling the
specification claims about them.

Rust machine integers that index vectors (usize) are modelled as Nat;
vectors as List; serde_json values as an inductive Json AST; the
std::sync::Mutex of ConfigManager as an explicit locked flag on the
modelled state (try_lock on a held lock fails, also when the holder is
the same call, since the std mutex is not reentrant); the preferences
file as an explicit field of the state.
-/

/-- Mirrors struct ShortcutConfig (config_manager.rs lines 9-14). -/
structure ShortcutConfig where
  modifiers : List String
  key : String
  action : String
deriving DecidableEq, Repr

/-- Mirrors impl Default for ShortcutConfig (config_manager.rs lines 16-24). -/
def ShortcutConfig.defaultConfig : ShortcutConfig :=
  { modifiers := ["ctrl", "alt"], key := "v", action := "切换应用窗口" }

/-- Mirrors fn default_toggle_app_shortcut (config_manager.rs lines 61-67). -/
def default_toggle_app_shortcut : ShortcutConfig :=
  { modifiers := ["ctrl", "alt"], key := "n", action := "切换应用窗口" }

/-- Mirrors struct ShortcutConfigs (config_manager.rs lines 36-41). -/
structure ShortcutConfigs where
  toggle_app : ShortcutConfig
deriving DecidableEq, Repr

/-- Mirrors the derived Default for ShortcutConfigs: field-wise default,
so toggle_app gets ShortcutConfig::default() (key "v"), not the serde
default default_toggle_app_shortcut (key "n"). -/
def ShortcutConfigs.defaultConfigs : ShortcutConfigs :=
  { toggle_app := ShortcutConfig.defaultConfig }

/-- Mirrors struct ApiUrl (config_manager.rs lines 51-55). -/
structure ApiUrl where
  name : String
  url : String
deriving DecidableEq, Repr

/-- Mirrors fn default_api_urls (config_manager.rs lines 69-76). -/
def default_api_urls : List ApiUrl :=
  [{ name := "默认API", url := "https://mememeow.morami.icu" }]

/-- Mirrors fn default_active_api_index (config_manager.rs lines 78-80). -/
def default_active_api_index : Nat := 0

/-- Mirrors struct ApiUrlConfig (config_manager.rs lines 43-49). -/
structure ApiUrlConfig where
  urls : List ApiUrl
  active_index : Nat
deriving DecidableEq, Repr

/-- Mirrors impl Default for ApiUrlConfig (config_manager.rs lines 82-89). -/
def ApiUrlConfig.defaultConfig : ApiUrlConfig :=
  { urls := default_api_urls, active_index := 0 }

/-- Mirrors struct UserPreferences (config_manager.rs lines 26-34). -/
structure UserPreferences where
  copy_to_clipboard : Bool
  shortcuts : ShortcutConfigs
  api_urls : ApiUrlConfig
deriving DecidableEq, Repr

/-- Mirrors impl Default for UserPreferences (config_manager.rs lines 91-99). -/
def UserPreferences.defaultPrefs : UserPreferences :=
  { copy_to_clipboard := true
    shortcuts := ShortcutConfigs.defaultConfigs
    api_urls := ApiUrlConfig.defaultConfig }

/-! Key and modifier codes of tauri_plugin_global_shortcut, restricted to
the constructors the repository uses. -/

/-- The Code values reachable from ShortcutConfig::to_tauri_shortcut. -/
inductive Code where
  | KeyA | KeyB | KeyC | KeyD | KeyE | KeyF | KeyG | KeyH | KeyI | KeyJ
  | KeyK | KeyL | KeyM | KeyN | KeyO | KeyP | KeyQ | KeyR | KeyS | KeyT
  | KeyU | KeyV | KeyW | KeyX | KeyY | KeyZ
  | Digit0 | Digit1 | Digit2 | Digit3 | Digit4 | Digit5 | Digit6 | Digit7
  | Digit8 | Digit9
  | F1 | F2 | F3 | F4 | F5 | F6 | F7 | F8 | F9 | F10 | F11 | F12
deriving DecidableEq, Repr

/-- Modifier bitflags of tauri_plugin_global_shortcut, as four booleans. -/
structure Modifiers where
  control : Bool
  alt : Bool
  shift : Bool
  meta : Bool
deriving DecidableEq, Repr

def Modifiers.emptyFlags : Modifiers :=
  { control := false, alt := false, shift := false, meta := false }

/-- Models str::to_lowercase as character-wise ASCII lowercasing over the
string content (the repository only compares against ASCII literals). -/
def strToLower (s : String) : String := ⟨s.data.map Char.toLower⟩

/-- One step of the modifier loop of to_tauri_shortcut
(config_manager.rs lines 105-113): insert the flag named by the token,
unrecognized tokens leave the flags unchanged. -/
def insertModifier (m : Modifiers) (token : String) : Modifiers :=
  match strToLower token with
  | "ctrl" => { m with control := true }
  | "alt" => { m with alt := true }
  | "shift" => { m with shift := true }
  | "meta" => { m with meta := true }
  | "super" => { m with meta := true }
  | "command" => { m with meta := true }
  | _ => m

/-- The key-to-code match of ShortcutConfig::to_tauri_shortcut
(config_manager.rs lines 116-169): the lowercased key string is matched
against 48 literals, anything else falls to Code::KeyV. -/
def keyCodeOf (key : String) : Code :=
  match strToLower key with
  | "a" => Code.KeyA
  | "b" => Code.KeyB
  | "c" => Code.KeyC
  | "d" => Code.KeyD
  | "e" => Code.KeyE
  | "f" => Code.KeyF
  | "g" => Code.KeyG
  | "h" => Code.KeyH
  | "i" => Code.KeyI
  | "j" => Code.KeyJ
  | "k" => Code.KeyK
  | "l" => Code.KeyL
  | "m" => Code.KeyM
  | "n" => Code.KeyN
  | "o" => Code.KeyO
  | "p" => Code.KeyP
  | "q" => Code.KeyQ
  | "r" => Code.KeyR
  | "s" => Code.KeyS
  | "t" => Code.KeyT
  | "u" => Code.KeyU
  | "v" => Code.KeyV
  | "w" => Code.KeyW
  | "x" => Code.KeyX
  | "y" => Code.KeyY
  | "z" => Code.KeyZ
  | "0" => Code.Digit0
  | "1" => Code.Digit1
  | "2" => Code.Digit2
  | "3" => Code.Digit3
  | "4" => Code.Digit4
  | "5" => Code.Digit5
  | "6" => Code.Digit6
  | "7" => Code.Digit7
  | "8" => Code.Digit8
  | "9" => Code.Digit9
  | "f1" => Code.F1
  | "f2" => Code.F2
  | "f3" => Code.F3
  | "f4" => Code.F4
  | "f5" => Code.F5
  | "f6" => Code.F6
  | "f7" => Code.F7
  | "f8" => Code.F8
  | "f9" => Code.F9
  | "f10" => Code.F10
  | "f11" => Code.F11
  | "f12" => Code.F12
  | _ => Code.KeyV

/-- Mirrors ShortcutConfig::to_tauri_shortcut (config_manager.rs
lines 103-172): fold the modifier tokens, then map the key string. -/
def ShortcutConfig.to_tauri_shortcut (sc : ShortcutConfig) : Modifiers × Code :=
  (sc.modifiers.foldl insertModifier Modifiers.emptyFlags, keyCodeOf sc.key)

/-- The 48 recognized key identifiers paired with their codes, in source
order: 26 letters, 10 digits, f1-f12. -/
def keyTable : List (String × Code) :=
  [("a", Code.KeyA), ("b", Code.KeyB), ("c", Code.KeyC), ("d", Code.KeyD),
   ("e", Code.KeyE), ("f", Code.KeyF), ("g", Code.KeyG), ("h", Code.KeyH),
   ("i", Code.KeyI), ("j", Code.KeyJ), ("k", Code.KeyK), ("l", Code.KeyL),
   ("m", Code.KeyM), ("n", Code.KeyN), ("o", Code.KeyO), ("p", Code.KeyP),
   ("q", Code.KeyQ), ("r", Code.KeyR), ("s", Code.KeyS), ("t", Code.KeyT),
   ("u", Code.KeyU), ("v", Code.KeyV), ("w", Code.KeyW), ("x", Code.KeyX),
   ("y", Code.KeyY), ("z", Code.KeyZ),
   ("0", Code.Digit0), ("1", Code.Digit1), ("2", Code.Digit2),
   ("3", Code.Digit3), ("4", Code.Digit4), ("5", Code.Digit5),
   ("6", Code.Digit6), ("7", Code.Digit7), ("8", Code.Digit8),
   ("9", Code.Digit9),
   ("f1", Code.F1), ("f2", Code.F2), ("f3", Code.F3), ("f4", Code.F4),
   ("f5", Code.F5), ("f6", Code.F6), ("f7", Code.F7), ("f8", Code.F8),
   ("f9", Code.F9), ("f10", Code.F10), ("f11", Code.F11), ("f12", Code.F12)]

/-! Serde_json values, restricted to the shapes the derives produce. -/

/-- JSON value AST: the image of serde serialization of the preference
structures. -/
inductive Json where
  | str : String → Json
  | num : Nat → Json
  | bool : Bool → Json
  | arr : List Json → Json
  | obj : List (String × Json) → Json

/-- First field of the given name in a serialized object, as the serde
deserializer reads named fields. -/
def findField (k : String) : List (String × Json) → Option Json
  | [] => none
  | (k2, v) :: rest => if k2 = k then some v else findField k rest

/-! Serialization: the image of the serde Serialize derives, field order
as declared in the structs. -/

def ShortcutConfig.toJson (sc : ShortcutConfig) : Json :=
  .obj [("modifiers", .arr (sc.modifiers.map .str)),
        ("key", .str sc.key),
        ("action", .str sc.action)]

def ShortcutConfigs.toJson (scs : ShortcutConfigs) : Json :=
  .obj [("toggle_app", scs.toggle_app.toJson)]

def ApiUrl.toJson (a : ApiUrl) : Json :=
  .obj [("name", .str a.name), ("url", .str a.url)]

def ApiUrlConfig.toJson (c : ApiUrlConfig) : Json :=
  .obj [("urls", .arr (c.urls.map ApiUrl.toJson)),
        ("active_index", .num c.active_index)]

def UserPreferences.toJson (p : UserPreferences) : Json :=
  .obj [("copy_to_clipboard", .bool p.copy_to_clipboard),
        ("shortcuts", p.shortcuts.toJson),
        ("api_urls", p.api_urls.toJson)]

/-! Deserialization: the serde Deserialize derives. A field with a
serde default attribute falls back to its default when absent; a field
without one is required; a present field of the wrong shape is an
error. -/

def strFromJson : Json → Option String
  | .str s => some s
  | _ => none

def natFromJson : Json → Option Nat
  | .num n => some n
  | _ => none

def boolFromJson : Json → Option Bool
  | .bool b => some b
  | _ => none

def strListFromJson : Json → Option (List String)
  | .arr l => l.mapM strFromJson
  | _ => none

def ShortcutConfig.fromJson : Json → Option ShortcutConfig
  | .obj fs => do
    let m ← findField "modifiers" fs >>= strListFromJson
    let k ← findField "key" fs >>= strFromJson
    let a ← findField "action" fs >>= strFromJson
    some { modifiers := m, key := k, action := a }
  | _ => none

def ShortcutConfigs.fromJson : Json → Option ShortcutConfigs
  | .obj fs =>
    match findField "toggle_app" fs with
    | some v => (ShortcutConfig.fromJson v).map fun t => { toggle_app := t }
    | none => some { toggle_app := default_toggle_app_shortcut }
  | _ => none

def ApiUrl.fromJson : Json → Option ApiUrl
  | .obj fs => do
    let n ← findField "name" fs >>= strFromJson
    let u ← findField "url" fs >>= strFromJson
    some { name := n, url := u }
  | _ => none

def apiUrlListFromJson : Json → Option (List ApiUrl)
  | .arr l => l.mapM ApiUrl.fromJson
  | _ => none

def ApiUrlConfig.fromJson : Json → Option ApiUrlConfig
  | .obj fs => do
    let us ← match findField "urls" fs with
      | some v => apiUrlListFromJson v
      | none => some default_api_urls
    let ai ← match findField "active_index" fs with
      | some v => natFromJson v
      | none => some default_active_api_index
    some { urls := us, active_index := ai }
  | _ => none

def UserPreferences.fromJson : Json → Option UserPreferences
  | .obj fs => do
    let c ← match findField "copy_to_clipboard" fs with
      | some v => boolFromJson v
      | none => some true
    let s ← match findField "shortcuts" fs with
      | some v => ShortcutConfigs.fromJson v
      | none => some ShortcutConfigs.defaultConfigs
    let a ← match findField "api_urls" fs with
      | some v => ApiUrlConfig.fromJson v
      | none => some ApiUrlConfig.defaultConfig
    some { copy_to_clipboard := c, shortcuts := s, api_urls := a }
  | _ => none

/-! Round-trip lemmas for the serde derives. -/

lemma strListFromJson_map_str (l : List String) :
    strListFromJson (.arr (l.map .str)) = some l := by
  simp only [strListFromJson]
  induction l with
  | nil => rfl
  | cons x xs ih =>
    simp only [List.map_cons, List.mapM_cons, strFromJson, ih,
      Option.bind_eq_bind, Option.some_bind, Option.pure_def]

lemma shortcutConfig_roundtrip (sc : ShortcutConfig) :
    ShortcutConfig.fromJson sc.toJson = some sc := by
  simp [ShortcutConfig.fromJson, ShortcutConfig.toJson, findField,
    strListFromJson_map_str, strFromJson]

lemma shortcutConfigs_roundtrip (scs : ShortcutConfigs) :
    ShortcutConfigs.fromJson scs.toJson = some scs := by
  simp [ShortcutConfigs.fromJson, ShortcutConfigs.toJson, findField,
    shortcutConfig_roundtrip]

lemma apiUrl_roundtrip (a : ApiUrl) :
    ApiUrl.fromJson a.toJson = some a := by
  simp [ApiUrl.fromJson, ApiUrl.toJson, findField, strFromJson]

lemma apiUrlListFromJson_map (l : List ApiUrl) :
    apiUrlListFromJson (.arr (l.map ApiUrl.toJson)) = some l := by
  simp only [apiUrlListFromJson]
  induction l with
  | nil => rfl
  | cons x xs ih =>
    simp only [List.map_cons, List.mapM_cons, apiUrl_roundtrip, ih,
      Option.bind_eq_bind, Option.some_bind, Option.pure_def]

lemma apiUrlConfig_roundtrip (c : ApiUrlConfig) :
    ApiUrlConfig.fromJson c.toJson = some c := by
  simp [ApiUrlConfig.fromJson, ApiUrlConfig.toJson, findField,
    apiUrlListFromJson_map, natFromJson]

lemma userPreferences_roundtrip (p : UserPreferences) :
    UserPreferences.fromJson p.toJson = some p := by
  simp [UserPreferences.fromJson, UserPreferences.toJson, findField,
    shortcutConfigs_roundtrip, apiUrlConfig_roundtrip, boolFromJson]

lemma userPreferences_toJson_injective {a b : UserPreferences}
    (h : a.toJson = b.toJson) : a = b := by
  have ha := userPreferences_roundtrip a
  have hb := userPreferences_roundtrip b
  rw [h, hb] at ha
  exact (Option.some_injective _ ha).symm

/-! The ConfigManager state: the guarded preferences value, the
preferences file, and the lock. -/

/-- Content of the preferences file: absent, existing text that parses
to a JSON value, or existing text that is not valid JSON. -/
inductive FileState where
  | absent
  | parsedAs (j : Json)
  | unparseable

/-- The modelled ConfigManager together with its environment: the
in-memory preferences behind the mutex, the file at self.path, and
whether the mutex is currently held. -/
structure MgrState where
  prefs : UserPreferences
  file : FileState
  locked : Bool

/-- The lock-failure error message of every try_lock site. -/
def lockErr : String := "获取偏好锁失败"

namespace ConfigManager

/-- Mirrors ConfigManager::load_preferences (config_manager.rs
lines 212-233): an absent file is created with the serialized default
and the default returned; an existing file is read and parsed, a parse
failure is an InvalidData error and the file is left as it is. -/
def load_preferences : FileState → Except String UserPreferences × FileState
  | .absent =>
    (.ok UserPreferences.defaultPrefs,
     .parsedAs UserPreferences.defaultPrefs.toJson)
  | .parsedAs j =>
    match UserPreferences.fromJson j with
    | some p => (.ok p, .parsedAs j)
    | none => (.error "解析配置文件失败", .parsedAs j)
  | .unparseable => (.error "解析配置文件失败", .unparseable)

/-- Mirrors ConfigManager::new (config_manager.rs lines 181-209): load,
substitute the default on any load error, start with the lock free.
Construction itself always succeeds once the config directory exists. -/
def new (fs : FileState) : MgrState :=
  let (r, fs2) := load_preferences fs
  { prefs := match r with
      | .ok p => p
      | .error _ => UserPreferences.defaultPrefs
    file := fs2
    locked := false }

/-- Mirrors ConfigManager::save_preferences (config_manager.rs
lines 236-250): try_lock the preferences mutex, fail if it is held,
otherwise write the serialized clone to the file. -/
def save_preferences (s : MgrState) : Except String Unit × MgrState :=
  if s.locked then (.error lockErr, s)
  else (.ok (), { s with file := .parsedAs s.prefs.toJson })

/-- Mirrors ConfigManager::save_preferences_locked (config_manager.rs
lines 252-258): write the serialization of the given preferences to the
file, no locking. -/
def save_preferences_locked (p : UserPreferences) (s : MgrState) :
    Except String Unit × MgrState :=
  (.ok (), { s with file := .parsedAs p.toJson })

/-- Mirrors ConfigManager::update_preferences (config_manager.rs
lines 276-289): try_lock, replace the whole record, then call
save_preferences while the guard is still alive; the mutex is not
reentrant, so that inner try_lock observes the held lock. -/
def update_preferences (new_prefs : UserPreferences) (s : MgrState) :
    Except String Unit × MgrState :=
  if s.locked then (.error lockErr, s)
  else
    let s1 := { s with prefs := new_prefs, locked := true }
    let (r, s2) := save_preferences s1
    (r, { s2 with locked := false })

/-- Mirrors ConfigManager::update_clipboard_setting (config_manager.rs
lines 292-306): try_lock, set the flag, save via
save_preferences_locked with the updated clone, release. -/
def update_clipboard_setting (enabled : Bool) (s : MgrState) :
    Except String Unit × MgrState :=
  if s.locked then (.error lockErr, s)
  else
    let p := { s.prefs with copy_to_clipboard := enabled }
    let (r, s2) := save_preferences_locked p { s with prefs := p, locked := true }
    (r, { s2 with locked := false })

/-- Mirrors ConfigManager::update_shortcuts (config_manager.rs
lines 309-320): acquire the lock (blocking in the source; the model
covers the uncontended call), set the shortcuts, save the clone. -/
def update_shortcuts (shortcuts : ShortcutConfigs) (s : MgrState) :
    Except String Unit × MgrState :=
  if s.locked then (.error lockErr, s)
  else
    let p := { s.prefs with shortcuts := shortcuts }
    let (r, s2) := save_preferences_locked p { s with prefs := p, locked := true }
    (r, { s2 with locked := false })

/-- Mirrors ConfigManager::get_active_api_url (config_manager.rs
lines 345-366): try_lock, return the fixed fallback on an empty list,
repair an out-of-range active_index to 0 for the returned value only. -/
def get_active_api_url (s : MgrState) : Except String String × MgrState :=
  if s.locked then (.error lockErr, s)
  else
    let config := s.prefs.api_urls
    if config.urls.isEmpty then (.ok "https://mememeow.morami.icu", s)
    else
      let index := if config.active_index < config.urls.length then
        config.active_index else 0
      (.ok (config.urls.getD index { name := "", url := "" }).url, s)

/-- Mirrors ConfigManager::update_api_url_config (config_manager.rs
lines 380-392): try_lock, replace api_urls, save the clone. -/
def update_api_url_config (config : ApiUrlConfig) (s : MgrState) :
    Except String Unit × MgrState :=
  if s.locked then (.error lockErr, s)
  else
    let p := { s.prefs with api_urls := config }
    let (r, s2) := save_preferences_locked p { s with prefs := p, locked := true }
    (r, { s2 with locked := false })

/-- The out-of-range error message of set_active_api_url and
remove_api_url. -/
def rangeErr : String := "API URL索引超出范围"

/-- Mirrors ConfigManager::set_active_api_url (config_manager.rs
lines 395-411): try_lock, with an in-range index set active_index and
save, otherwise report InvalidInput and change nothing. -/
def set_active_api_url (index : Nat) (s : MgrState) :
    Except String Unit × MgrState :=
  if s.locked then (.error lockErr, s)
  else if index < s.prefs.api_urls.urls.length then
    let p := { s.prefs with
      api_urls := { s.prefs.api_urls with active_index := index } }
    let (r, s2) := save_preferences_locked p { s with prefs := p, locked := true }
    (r, { s2 with locked := false })
  else (.error rangeErr, s)

/-- Mirrors ConfigManager::add_api_url (config_manager.rs
lines 414-426): try_lock, push the new entry, save the clone. -/
def add_api_url (name url : String) (s : MgrState) :
    Except String Unit × MgrState :=
  if s.locked then (.error lockErr, s)
  else
    let p := { s.prefs with
      api_urls := { s.prefs.api_urls with
        urls := s.prefs.api_urls.urls ++ [{ name := name, url := url }] } }
    let (r, s2) := save_preferences_locked p { s with prefs := p, locked := true }
    (r, { s2 with locked := false })

/-- Mirrors ConfigManager::remove_api_url (config_manager.rs
lines 429-451): try_lock, with an in-range index remove the entry, then
reset active_index to 0 only when it is not below the shortened length,
save; with an out-of-range index report InvalidInput and change
nothing. -/
def remove_api_url (index : Nat) (s : MgrState) :
    Except String Unit × MgrState :=
  if s.locked then (.error lockErr, s)
  else if index < s.prefs.api_urls.urls.length then
    let urls2 := s.prefs.api_urls.urls.eraseIdx index
    let active2 := if s.prefs.api_urls.active_index ≥ urls2.length then 0
      else s.prefs.api_urls.active_index
    let p := { s.prefs with
      api_urls := { urls := urls2, active_index := active2 } }
    let (r, s2) := save_preferences_locked p { s with prefs := p, locked := true }
    (r, { s2 with locked := false })
  else (.error rangeErr, s)

end ConfigManager

/-! The resilient fetcher (src/src-tauri/src/utils/network.rs). Network
attempts are driven by an oracle: outcome timeout i is some body when
the attempt against the candidate at position i, made with the given
timeout, yields a success-status response with that body within the
timeout, and none when it fails for any reason (transport error,
non-success status, body-read error), exactly the three cases
download_single_url collapses into an Err. -/

/-- Mirrors the inner for-loop of download_with_fallback_urls
(network.rs lines 50-63): attempt each candidate in order starting at
position i, return the first success together with the list of
positions attempted. -/
def tryUrls (outcome : Nat → Option String) :
    List String → Nat → Option String × List Nat
  | [], _ => (none, [])
  | _u :: rest, i =>
    match outcome i with
    | some body => (some body, [i])
    | none =>
      let (r, tr) := tryUrls outcome rest (i + 1)
      (r, i :: tr)

/-- Mirrors the while-loop of download_with_fallback_urls (network.rs
lines 38-70): while the timeout is at most max_timeout 10, build one
client, run a pass over the candidates, stop on success, else double
the timeout. Returns the result, the attempts as (timeout, position)
pairs, and the number of clients built (one per pass entered). The
positivity argument only rules out the timeout value 0 the source can
never reach (it starts at 3 and doubles). -/
def downloadFrom (outcome : Nat → Nat → Option String) (urls : List String)
    (timeout : Nat) (hpos : 0 < timeout) :
    Except String String × List (Nat × Nat) × Nat :=
  if h : timeout ≤ 10 then
    match tryUrls (outcome timeout) urls 0 with
    | (some body, tr) => (.ok body, tr.map fun i => (timeout, i), 1)
    | (none, tr) =>
      let (r, tr2, c) := downloadFrom outcome urls (timeout * 2) (by omega)
      (r, (tr.map fun i => (timeout, i)) ++ tr2, 1 + c)
  else (.error "无法从任何提供的URL下载内容", [], 0)
termination_by 11 - timeout
decreasing_by omega

/-- Mirrors download_with_fallback_urls (network.rs lines 19-74): an
empty candidate list is rejected before any client is built, otherwise
the escalation loop starts at timeout 3. -/
def download_with_fallback_urls (outcome : Nat → Nat → Option String)
    (urls : List String) : Except String String × List (Nat × Nat) × Nat :=
  if urls.isEmpty then (.error "URL列表为空", [], 0)
  else downloadFrom outcome urls 3 (by omega)

lemma range_map_add_succ (i n : Nat) :
    (List.range (n + 1)).map (i + ·) = i :: (List.range n).map ((i + 1) + ·) := by
  rw [List.range_succ_eq_map]
  simp only [List.map_cons, List.map_map, Nat.add_zero]
  refine congrArg _ (List.map_congr_left fun a _ => ?_)
  simp [Function.comp]
  omega

/-- When every attempt fails, a pass visits every candidate in order. -/
lemma tryUrls_all_none (outcome : Nat → Option String)
    (hfail : ∀ j, outcome j = none) :
    ∀ (urls : List String) (i : Nat),
      tryUrls outcome urls i = (none, (List.range urls.length).map (i + ·)) := by
  intro urls
  induction urls with
  | nil => intro i; simp [tryUrls]
  | cons u rest ih =>
    intro i
    simp only [tryUrls, hfail i, ih (i + 1), List.length_cons,
      range_map_add_succ]

/-- When the candidate at relative position k is the first to succeed,
a pass visits exactly the positions up to k, in order, and returns that
body. -/
lemma tryUrls_first_success (outcome : Nat → Option String) (body : String) :
    ∀ (urls : List String) (k i : Nat), k < urls.length →
      outcome (i + k) = some body → (∀ j < k, outcome (i + j) = none) →
      tryUrls outcome urls i = (some body, (List.range (k + 1)).map (i + ·)) := by
  intro urls
  induction urls with
  | nil => intro k i hk; simp at hk
  | cons u rest ih =>
    intro k i hk hsucc hbefore
    match k with
    | 0 =>
      simp only [Nat.add_zero] at hsucc
      simp [tryUrls, hsucc, List.range_succ]
    | k' + 1 =>
      have h0 : outcome i = none := by
        have := hbefore 0 (by omega)
        simpa using this
      have hrec := ih k' (i + 1) (by simpa using Nat.lt_of_succ_lt_succ hk)
        (by rw [show i + 1 + k' = i + (k' + 1) by omega]; exact hsucc)
        (fun j hj => by
          rw [show i + 1 + j = i + (j + 1) by omega]
          exact hbefore (j + 1) (by omega))
      simp only [tryUrls, h0, hrec, range_map_add_succ]

/-! Concrete states used by the claim theorems. -/

/-- The manager state right after construction against an absent file:
default preferences, the file holding their serialization, lock free. -/
def freshState : MgrState := ConfigManager.new FileState.absent

/-- A whole-record replacement differing from the default in the
clipboard flag. -/
def newPrefsExample : UserPreferences :=
  { UserPreferences.defaultPrefs with copy_to_clipboard := false }

/-- A lock-free state whose endpoint list has three entries and whose
active_index is 1. -/
def threeUrlState : MgrState :=
  { prefs :=
      { copy_to_clipboard := true
        shortcuts := ShortcutConfigs.defaultConfigs
        api_urls :=
          { urls := [{ name := "a", url := "ua" }, { name := "b", url := "ub" },
                     { name := "c", url := "uc" }]
            active_index := 1 } }
    file := FileState.absent
    locked := false }

/-- C1: update_preferences acquires the try_lock and then calls
save_preferences, whose own try_lock on the non-reentrant mutex finds
the lock held by this very call and fails: the in-memory value is
replaced, but the operation returns the lock error and the file is
never written, so on return the file does not hold the serialization of
the new value. This contradicts the claimed write-through behaviour of
every write operation. -/
theorem c1_update_preferences_never_persists :
    (ConfigManager.update_preferences newPrefsExample freshState).1 =
      .error lockErr ∧
    (ConfigManager.update_preferences newPrefsExample freshState).2.prefs =
      newPrefsExample ∧
    (ConfigManager.update_preferences newPrefsExample freshState).2.file ≠
      FileState.parsedAs newPrefsExample.toJson := by
  refine ⟨rfl, rfl, fun h => ?_⟩
  have h2 : FileState.parsedAs UserPreferences.defaultPrefs.toJson =
      FileState.parsedAs newPrefsExample.toJson := h
  have h3 : UserPreferences.defaultPrefs.toJson = newPrefsExample.toJson := by
    injection h2
  exact absurd (userPreferences_toJson_injective h3) (by decide)

/-- C2: removing the endpoint at the active index does not reset
active_index to 0 whenever the index is still below the shortened
length: with three endpoints and active_index 1, remove_api_url 1
succeeds and leaves active_index at 1, contradicting the claimed
unconditional reset (and the comment in the source at
config_manager.rs line 435). -/
theorem c2_remove_active_keeps_index :
    (ConfigManager.remove_api_url 1 threeUrlState).1 = .ok () ∧
    (ConfigManager.remove_api_url 1 threeUrlState).2.prefs.api_urls.active_index
      = 1 ∧ (1 : Nat) ≠ 0 := by
  exact ⟨rfl, rfl, by decide⟩

/-- C4, counterexample: with an unparseable preferences file,
construction substitutes the default in memory but does not rewrite the
file; the file does not end up holding the serialized default as the
claim states. -/
theorem c4_unparseable_file_not_rewritten :
    (ConfigManager.new FileState.unparseable).prefs =
      UserPreferences.defaultPrefs ∧
    (ConfigManager.new FileState.unparseable).file ≠
      FileState.parsedAs UserPreferences.defaultPrefs.toJson :=
  ⟨rfl, fun h => FileState.noConfusion h⟩

/-- C4, amended: construction always succeeds and substitutes the
default on any load failure, but the write-back happens only in the
absent-file branch; a file that exists and fails to parse (as raw text
or as a JSON value of the wrong shape) is left untouched. -/
theorem c4_construction_self_heals_only_when_absent :
    ((ConfigManager.new FileState.absent).prefs = UserPreferences.defaultPrefs ∧
      (ConfigManager.new FileState.absent).file =
        FileState.parsedAs UserPreferences.defaultPrefs.toJson) ∧
    ((ConfigManager.new FileState.unparseable).prefs =
        UserPreferences.defaultPrefs ∧
      (ConfigManager.new FileState.unparseable).file = FileState.unparseable) ∧
    ∀ j : Json, UserPreferences.fromJson j = none →
      (ConfigManager.new (FileState.parsedAs j)).prefs =
          UserPreferences.defaultPrefs ∧
        (ConfigManager.new (FileState.parsedAs j)).file =
          FileState.parsedAs j := by
  refine ⟨⟨rfl, rfl⟩, ⟨rfl, rfl⟩, fun j hj => ?_⟩
  simp [ConfigManager.new, ConfigManager.load_preferences, hj]

/-- C4, witness for the amended theorem at the JSON value 0, which is
not an object and hence fails to deserialize. -/
theorem c4_construction_self_heals_witness :
    (ConfigManager.new (FileState.parsedAs (Json.num 0))).prefs =
      UserPreferences.defaultPrefs :=
  (c4_construction_self_heals_only_when_absent.2.2 (Json.num 0) rfl).1

/-- C3, counterexample: with a single candidate failing every attempt,
the loop enters passes at timeouts 3 and 6 only (12 exceeds the
ceiling), so exactly 2 clients are built and 2 full passes happen, not
the claimed ceil(log2(10/3)) + 1 = 3. -/
theorem c3_two_tiers_not_three :
    (download_with_fallback_urls (fun _ _ => none) ["u"]).2.2 = 2 ∧
    (download_with_fallback_urls (fun _ _ => none) ["u"]).2.2 ≠ 3 := by
  have h : download_with_fallback_urls (fun _ _ => none) ["u"] =
      (.error "无法从任何提供的URL下载内容", [(3, 0), (6, 0)], 2) := by
    simp [download_with_fallback_urls, downloadFrom, tryUrls]
  rw [h]
  exact ⟨rfl, by decide⟩

/-- C3, amended: with timeout floor 3, ceiling 10 and doubling between
passes, when every attempt on every candidate fails,
download_with_fallback_urls performs exactly floor(log2(10/3)) + 1 = 2
full in-order passes over the candidate list (at timeouts 3 and 6) and
then returns the terminal failure. -/
theorem c3_all_fail_exhausts_two_tiers (outcome : Nat → Nat → Option String)
    (urls : List String) (hne : urls ≠ [])
    (hfail : ∀ t i, outcome t i = none) :
    download_with_fallback_urls outcome urls =
      (.error "无法从任何提供的URL下载内容",
       ((List.range urls.length).map fun i => (3, i)) ++
         ((List.range urls.length).map fun i => (6, i)), 2) := by
  have h3 := tryUrls_all_none (outcome 3) (hfail 3) urls 0
  have h6 := tryUrls_all_none (outcome 6) (hfail 6) urls 0
  simp [download_with_fallback_urls, downloadFrom, h3, h6, hne,
    List.isEmpty_iff]

/-- C3, witness: the amended theorem applied to a concrete two-element
candidate list with an all-failing oracle. -/
theorem c3_all_fail_exhausts_two_tiers_witness :
    download_with_fallback_urls (fun _ _ => none) ["p", "q"] =
      (.error "无法从任何提供的URL下载内容",
       [(3, 0), (3, 1), (6, 0), (6, 1)], 2) := by
  have h := c3_all_fail_exhausts_two_tiers (fun _ _ => none) ["p", "q"]
    (by simp) (fun _ _ => rfl)
  simpa using h

/-- Whatever the per-attempt outcomes, one pass records an in-order
prefix of the candidate positions: the positions i, i+1, ... up to
either the first success or the end of the list. -/
lemma tryUrls_trace_prefix (outcome : Nat → Option String) :
    ∀ (urls : List String) (i : Nat),
      ∃ m ≤ urls.length, (tryUrls outcome urls i).2 = (List.range m).map (i + ·) := by
  intro urls
  induction urls with
  | nil =>
    intro i
    exact ⟨0, by simp, by simp [tryUrls]⟩
  | cons u rest ih =>
    intro i
    cases hoc : outcome i with
    | some b =>
      refine ⟨1, by simp, ?_⟩
      simp [tryUrls, hoc, List.range_succ]
    | none =>
      obtain ⟨m, hm, htr⟩ := ih (i + 1)
      refine ⟨m + 1, by simpa using Nat.succ_le_succ hm, ?_⟩
      simp [tryUrls, hoc, htr, range_map_add_succ]

/-- C5: for every candidate list and every assignment of per-attempt
outcomes, the recorded attempts are an in-order prefix of the candidate
positions at tier 3 followed by an in-order prefix at tier 6 (the only
tiers the loop can enter), so within each tier the candidates are
attempted strictly in the given list order; and whenever the candidate
at position k is the first to succeed at the first tier (timeout 3),
the fetch returns that candidate's body after attempting exactly
positions 0..k at tier 3, with a single client built and no attempt at
any later tier. -/
theorem c5_in_order_within_tiers_and_first_tier_short_circuit
    (outcome : Nat → Nat → Option String) (urls : List String) :
    (∃ m3 ≤ urls.length, ∃ m6 ≤ urls.length,
      (download_with_fallback_urls outcome urls).2.1 =
        ((List.range m3).map fun i => (3, i)) ++
          ((List.range m6).map fun i => (6, i))) ∧
    ∀ k body, k < urls.length → outcome 3 k = some body →
      (∀ j < k, outcome 3 j = none) →
      download_with_fallback_urls outcome urls =
        (.ok body, (List.range (k + 1)).map fun i => (3, i), 1) := by
  constructor
  · by_cases hne : urls = []
    · exact ⟨0, by simp, 0, by simp,
        by simp [hne, download_with_fallback_urls]⟩
    · obtain ⟨m3, hm3, h3⟩ := tryUrls_trace_prefix (outcome 3) urls 0
      rcases htry3 : tryUrls (outcome 3) urls 0 with ⟨r3, tr3⟩
      rw [htry3] at h3
      simp only [Nat.zero_add] at h3
      cases r3 with
      | some body =>
        refine ⟨m3, hm3, 0, by simp, ?_⟩
        simp [download_with_fallback_urls, downloadFrom, hne,
          List.isEmpty_iff, htry3, h3, List.map_map, Function.comp]
      | none =>
        obtain ⟨m6, hm6, h6⟩ := tryUrls_trace_prefix (outcome 6) urls 0
        rcases htry6 : tryUrls (outcome 6) urls 0 with ⟨r6, tr6⟩
        rw [htry6] at h6
        simp only [Nat.zero_add] at h6
        cases r6 with
        | some body =>
          refine ⟨m3, hm3, m6, hm6, ?_⟩
          simp [download_with_fallback_urls, downloadFrom, hne,
            List.isEmpty_iff, htry3, htry6, h3, h6, List.map_map,
            Function.comp]
        | none =>
          refine ⟨m3, hm3, m6, hm6, ?_⟩
          simp [download_with_fallback_urls, downloadFrom, hne,
            List.isEmpty_iff, htry3, htry6, h3, h6, List.map_map,
            Function.comp]
  · intro k body hk hsucc hbefore
    have hne : urls ≠ [] := by
      intro h
      rw [h] at hk
      simp at hk
    have h := tryUrls_first_success (outcome 3) body urls k 0 hk
      (by simpa using hsucc) (fun j hj => by simpa using hbefore j hj)
    simp [download_with_fallback_urls, downloadFrom, h, hne,
      List.isEmpty_iff]

/-- C5, witness: candidates [A, B] where A fails and B succeeds at the
first tier; the short-circuit part of the theorem applied there yields
the body of B after attempts at positions 0 and 1 of tier 3 only, with
one client built. -/
theorem c5_in_order_within_tiers_witness :
    download_with_fallback_urls
        (fun _ i => if i = 1 then some "bodyB" else none) ["A", "B"] =
      (.ok "bodyB", [(3, 0), (3, 1)], 1) := by
  have h := (c5_in_order_within_tiers_and_first_tier_short_circuit
    (fun _ i => if i = 1 then some "bodyB" else none) ["A", "B"]).2 1 "bodyB"
    (by decide) rfl (fun j hj => by
      have hj0 : j = 0 := by omega
      simp [hj0])
  simpa using h

/-- C10: the empty candidate list is rejected up front: the fetch
returns the empty-list error with no attempt recorded and no client
built, at any tier. -/
theorem c10_empty_list_immediate_error (outcome : Nat → Nat → Option String) :
    download_with_fallback_urls outcome [] = (.error "URL列表为空", [], 0) := rfl

/-- C6: with the lock free, set_active_api_url and remove_api_url with
an index at or past the end of the endpoint list return the validation
error and leave the whole state (preferences and file) unchanged, and
set_active_api_url with an in-range index succeeds, sets active_index
to that index, keeps the list, and releases the lock. -/
theorem c6_index_validation (s : MgrState) (h : s.locked = false) (i : Nat) :
    (s.prefs.api_urls.urls.length ≤ i →
      ConfigManager.set_active_api_url i s = (.error ConfigManager.rangeErr, s) ∧
      ConfigManager.remove_api_url i s = (.error ConfigManager.rangeErr, s)) ∧
    (i < s.prefs.api_urls.urls.length →
      (ConfigManager.set_active_api_url i s).1 = .ok () ∧
      (ConfigManager.set_active_api_url i s).2.prefs.api_urls.active_index = i ∧
      (ConfigManager.set_active_api_url i s).2.prefs.api_urls.urls =
        s.prefs.api_urls.urls ∧
      (ConfigManager.set_active_api_url i s).2.locked = false) := by
  constructor
  · intro hle
    have hnl : ¬ i < s.prefs.api_urls.urls.length := by omega
    constructor <;>
      simp [ConfigManager.set_active_api_url, ConfigManager.remove_api_url,
        h, hnl]
  · intro hlt
    simp [ConfigManager.set_active_api_url, h, hlt,
      ConfigManager.save_preferences_locked]

/-- C6, witness: on the fresh default state (one endpoint), index 5 is
rejected with the range error and index 0 is accepted. -/
theorem c6_index_validation_witness :
    ConfigManager.set_active_api_url 5 freshState =
        (.error ConfigManager.rangeErr, freshState) ∧
      (ConfigManager.set_active_api_url 0 freshState).1 = .ok () :=
  ⟨((c6_index_validation freshState rfl 5).1 (by decide)).1,
   ((c6_index_validation freshState rfl 0).2 (by decide)).1⟩

/-- C7: with the lock free, get_active_api_url never fails and never
changes the state: an empty endpoint list yields the fixed fallback
URL, an out-of-range active_index yields the URL at position 0, and a
valid active_index yields the URL at that position. -/
theorem c7_get_active_url (s : MgrState) (h : s.locked = false) :
    (ConfigManager.get_active_api_url s).2 = s ∧
    (s.prefs.api_urls.urls = [] →
      (ConfigManager.get_active_api_url s).1 =
        .ok "https://mememeow.morami.icu") ∧
    (∀ hlt : s.prefs.api_urls.active_index < s.prefs.api_urls.urls.length,
      (ConfigManager.get_active_api_url s).1 =
        .ok (s.prefs.api_urls.urls.get
          ⟨s.prefs.api_urls.active_index, hlt⟩).url) ∧
    (∀ hpos : 0 < s.prefs.api_urls.urls.length,
      s.prefs.api_urls.urls.length ≤ s.prefs.api_urls.active_index →
      (ConfigManager.get_active_api_url s).1 =
        .ok (s.prefs.api_urls.urls.get ⟨0, hpos⟩).url) := by
  refine ⟨?_, ?_, ?_, ?_⟩
  · simp only [ConfigManager.get_active_api_url, h, Bool.false_eq_true,
      if_false]
    split <;> rfl
  · intro he
    simp [ConfigManager.get_active_api_url, h, he]
  · intro hlt
    have hne : s.prefs.api_urls.urls ≠ [] :=
      List.ne_nil_of_length_pos (by omega)
    simp [ConfigManager.get_active_api_url, h, hne, List.isEmpty_iff, hlt,
      List.getD_eq_getElem]
  · intro hpos hge
    have hne : s.prefs.api_urls.urls ≠ [] :=
      List.ne_nil_of_length_pos (by omega)
    have hnl : ¬ s.prefs.api_urls.active_index <
        s.prefs.api_urls.urls.length := by omega
    simp [ConfigManager.get_active_api_url, h, hne, List.isEmpty_iff, hnl,
      List.getD, List.getElem?_eq_getElem hpos]

/-- C7, witness: on a state with an empty endpoint list and on the
fresh default state (active_index 0 in range), applied concretely. -/
theorem c7_get_active_url_witness :
    (ConfigManager.get_active_api_url
        { prefs :=
            { copy_to_clipboard := true
              shortcuts := ShortcutConfigs.defaultConfigs
              api_urls := { urls := [], active_index := 0 } }
          file := FileState.absent
          locked := false }).1 = .ok "https://mememeow.morami.icu" :=
  (c7_get_active_url _ rfl).2.1 rfl

/-- C8: the key-to-code mapping is total: each of the 48 recognized
identifiers (26 letters, 10 digits, f1-f12) maps to its own code, those
48 codes are pairwise distinct, and every string whose lowercasing is
outside the recognized set maps to the fixed default Code.KeyV. -/
theorem c8_key_mapping_total :
    (∀ p ∈ keyTable, keyCodeOf p.1 = p.2) ∧
    (keyTable.map Prod.snd).Nodup ∧
    ∀ s : String, strToLower s ∉ keyTable.map Prod.fst →
      keyCodeOf s = Code.KeyV := by
  refine ⟨by decide, by decide, fun s hs => ?_⟩
  simp only [keyCodeOf]
  split <;>
    first
      | rfl
      | (rename_i heq; exact absurd (by rw [heq]; decide) hs)

/-- C8, witness: an unrecognized key string falls to the default key. -/
theorem c8_key_mapping_total_witness : keyCodeOf "enter" = Code.KeyV :=
  c8_key_mapping_total.2.2 "enter" (by decide)

/-- C9: deserializing the serialization of any UserPreferences value
reproduces the value field for field (the serde text layer, pretty
printing and parsing of the JSON document, is modelled as transporting
the JSON value unchanged). -/
theorem c9_preferences_roundtrip (p : UserPreferences) :
    UserPreferences.fromJson p.toJson = some p :=
  userPreferences_roundtrip p
